import Mathlib

/-
Verification of the DPX reader plugin (src/dpx.imageio/dpxinput.cpp).

This file gives a shallow embedding of the decoder's pure logic: header
field accessors with their sentinel suppression, the metadata derivation
performed by DPXInput::seek_subimage, the shared lookup helper, keycode
decomposition, timecode formatting, and the per-instance state machine
(current subimage, cached user-data buffer, the rawcolor flag).

Machine integers are modelled as Nat; IEEE float header fields are modelled
by the record F32 below, which carries a NaN flag and the numeric value
(the decoder only ever tests NaN-ness and otherwise passes the value
through, so this is exact for everything the code does with them).
Fixed-size char-array fields are modelled as lists of byte values.

Numeric values of the libdpx enumerations (DPXHeader.h is not part of
src/) are taken from the SMPTE 268M layout the spec describes; none of the
theorems below depend on the particular numerals, only on their
distinctness and on the table memberships visible in dpxinput.cpp.
-/

set_option autoImplicit false

namespace DPX2P

/-- Model of an IEEE float header field: a NaN flag plus the numeric value
(as a rational). The decoder only tests `std::isnan` and otherwise passes
the value through unchanged. -/
structure F32 where
  isNan : Bool
  val : Rat
  deriving DecidableEq, Repr

/-- Values stored in the ImageSpec attribute list by seek_subimage. -/
inductive AttrVal where
  /-- signed integer attribute -/
  | i (v : Int)
  /-- unsigned integer attribute -/
  | u (v : Nat)
  /-- float attribute, modelled as a rational -/
  | q (v : Rat)
  /-- string attribute from a literal -/
  | s (v : String)
  /-- string attribute copied out of a fixed char field (C string bytes) -/
  | bytes (v : List Nat)
  /-- smpte:KeyCode int[7] attribute -/
  | keycode (v : List Int)
  /-- smpte:TimeCode int[2] attribute (timeCode word, userBits word) -/
  | timecode (tc ub : Nat)
  /-- colorspace tag produced by set_colorspace_rec709_gamma -/
  | gammaSpace (g : Rat)
  deriving DecidableEq, Repr

/-- Shallow embedding of the `lookup` helper of dpxinput.cpp: scan the
(KEY,VAL) table in order with std::find_if and return the value of the
first pair whose key equals the given key, or `defaultval` when no pair
matches. A pure function. -/
def lookup {α β : Type} [DecidableEq α] (key : α) (values : List (α × β))
    (defaultval : β) : β :=
  match values with
  | [] => defaultval
  | v :: rest => if v.1 = key then v.2 else lookup key rest defaultval

/-- Rendering of the fmt format-spec `02d` used by get_timecode_string:
the decimal digits of the value, left-padded with zeros to width two. -/
def fmt02d (n : Nat) : String :=
  let s := Nat.repr n
  if s.length < 2 then "0" ++ s else s

/-- Parsed Imf::TimeCode as consumed by get_timecode_string: the accessor
results the function reads. -/
structure TimeCodeRec where
  hours : Nat
  minutes : Nat
  seconds : Nat
  frame : Nat
  dropFrame : Bool
  deriving DecidableEq, Repr

/-- Shallow embedding of DPXInput::get_timecode_string: renders the format
string `{:02d}:{:02d}:{:02d}{}{:02d}` (braces here quote the C++ format
spec), where the separator before the frame field is a semicolon for
drop-frame timecodes and a colon otherwise. -/
def get_timecode_string (tc : TimeCodeRec) : String :=
  fmt02d tc.hours ++ ":" ++ fmt02d tc.minutes ++ ":" ++ fmt02d tc.seconds
    ++ (if tc.dropFrame then ";" else ":") ++ fmt02d tc.frame

/-- Independent rendering of a value below 100 as exactly two decimal
digits, written from digit arithmetic rather than from the format-string
semantics; used to state the zero-padding property. -/
def twoDigitsOf (n : Nat) : String :=
  String.mk [Char.ofNat (48 + n / 10), Char.ofNat (48 + n % 10)]

/-- Modelled from the spec: Imf::TimeCode (OpenEXR, not part of src/)
unpacks the SMPTE time-and-flags word as binary-coded decimal: frame units
in bits 0-3, frame tens in bits 4-5, the drop-frame flag in bit 6, seconds
units in bits 8-11, seconds tens in bits 12-14, minutes units in bits
16-19, minutes tens in bits 20-22, hours units in bits 24-27 and hours
tens in bits 28-29. -/
def timeCodeOfWord (w : Nat) : TimeCodeRec :=
  { hours := 10 * (w / 2 ^ 28 % 4) + w / 2 ^ 24 % 16
    minutes := 10 * (w / 2 ^ 20 % 8) + w / 2 ^ 16 % 16
    seconds := 10 * (w / 2 ^ 12 % 8) + w / 2 ^ 8 % 16
    frame := 10 * (w / 2 ^ 4 % 4) + w % 16
    dropFrame := w / 2 ^ 6 % 2 = 1 }

/-- Strutil::stoi digit loop: accumulate decimal digits, stopping at the
first non-digit byte. -/
def digitsVal : List Nat → Nat → Nat
  | [], acc => acc
  | b :: rest, acc =>
    if 48 ≤ b ∧ b ≤ 57 then digitsVal rest (acc * 10 + (b - 48)) else acc

/-- Shallow embedding of Strutil::stoi on a fixed-width string_view: skip
leading blanks, accept an optional sign, then read decimal digits; the
result is 0 when no digits follow. (The keycode fields are at most six
characters wide, so the overflow clamping of the original can never
trigger and is omitted.) -/
def stoi (v : List Nat) : Int :=
  let v1 := v.dropWhile (fun b => b == 32 || b == 9)
  match v1 with
  | 45 :: rest => -(digitsVal rest 0 : Int)
  | 43 :: rest => (digitsVal rest 0 : Int)
  | _ => (digitsVal v1 0 : Int)

/-- Byte values of a string literal, for comparing fixed char fields
against the format names in get_keycode_values. -/
def strBytes (s : String) : List Nat := s.toList.map Char.toNat

/-- Shallow embedding of the format-matching tail of
DPXInput::get_keycode_values. The C++ builds `std::string format` from the
32-byte header field with an explicit length of 32, so the value always
has length 32 (NUL padding included) and is compared whole against the
literal format names; Strutil::starts_with only inspects a prefix. Returns
(perfsPerFrame, perfsPerCount). -/
def perfsOf (format : List Nat) : Int × Int :=
  let f := format.take 32
  if f = strBytes "8kimax" then (15, 120)
  else if List.isPrefixOf (strBytes "2kvv") f ∨ List.isPrefixOf (strBytes "4kvv") f then (8, 64)
  else if f = strBytes "VistaVision" then (8, 64)
  else if List.isPrefixOf (strBytes "2k35") f ∨ List.isPrefixOf (strBytes "4k35") f then (4, 64)
  else if f = strBytes "Full Aperture" then (4, 64)
  else if f = strBytes "Academy" then (4, 64)
  else if List.isPrefixOf (strBytes "2k3perf") f ∨ List.isPrefixOf (strBytes "4k3perf") f then (3, 64)
  else if f = strBytes "3perf" then (3, 64)
  else (4, 64)

end DPX2P

namespace DPX2P

/-! ### Enumeration codes

Numeric codes of the libdpx enumerations (DPXHeader.h is external to
src/). Modelled from the spec: the SMPTE 268M enumerated header values.
Only their distinctness and the table memberships written out in
dpxinput.cpp matter to the theorems below. -/

/-- dpx::DataSize code for kByte. -/
def kByte : Nat := 0
/-- dpx::DataSize code for kWord. -/
def kWord : Nat := 1
/-- dpx::DataSize code for kInt. -/
def kInt : Nat := 2
/-- dpx::DataSize code for kFloat. -/
def kFloat : Nat := 3
/-- dpx::DataSize code for kDouble. -/
def kDouble : Nat := 4

/-- dpx::Descriptor codes, as used in the channel-name switch. -/
def kUserDefinedDescriptor : Nat := 0
def kRed : Nat := 1
def kGreen : Nat := 2
def kBlue : Nat := 3
def kAlpha : Nat := 4
def kLuma : Nat := 6
def kColorDifference : Nat := 7
def kDepth : Nat := 8
def kCompositeVideo : Nat := 9
def kRGB : Nat := 50
def kRGBA : Nat := 51
def kABGR : Nat := 52
def kCbYCrY : Nat := 100
def kCbYACrYA : Nat := 101
def kCbYCr : Nat := 102
def kCbYCrA : Nat := 103
def kUserDefined2Comp : Nat := 150
def kUserDefined3Comp : Nat := 151
def kUserDefined4Comp : Nat := 152
def kUserDefined5Comp : Nat := 153
def kUserDefined6Comp : Nat := 154
def kUserDefined7Comp : Nat := 155
def kUserDefined8Comp : Nat := 156

/-- dpx::Characteristic codes. -/
def kUserDefined : Nat := 0
def kPrintingDensity : Nat := 1
def kLinear : Nat := 2
def kLogarithmic : Nat := 3
def kUnspecifiedVideo : Nat := 4
def kSMPTE274M : Nat := 5
def kITUR709 : Nat := 6
def kITUR601 : Nat := 7
def kITUR602 : Nat := 8
def kNTSCCompositeVideo : Nat := 9
def kPALCompositeVideo : Nat := 10
def kZLinear : Nat := 11
def kZHomogeneous : Nat := 12
def kADX : Nat := 13
def kUndefinedCharacteristic : Nat := 254

/-- dpx::Orientation codes. -/
def kLeftToRightTopToBottom : Nat := 0
def kRightToLeftTopToBottom : Nat := 1
def kLeftToRightBottomToTop : Nat := 2
def kRightToLeftBottomToTop : Nat := 3
def kTopToBottomLeftToRight : Nat := 4
def kTopToBottomRightToLeft : Nat := 5
def kBottomToTopLeftToRight : Nat := 6
def kBottomToTopRightToLeft : Nat := 7

/-- dpx::VideoSignal codes. -/
def kUndefined : Nat := 0
def kNTSC : Nat := 1
def kPAL : Nat := 2
def kPAL_M : Nat := 3
def kSECAM : Nat := 4
def k525LineInterlace43AR : Nat := 50
def k625LineInterlace43AR : Nat := 51
def k525LineInterlace169AR : Nat := 100
def k625LineInterlace169AR : Nat := 101
def k1050LineInterlace169AR : Nat := 150
def k1125LineInterlace169AR_274 : Nat := 151
def k1250LineInterlace169AR : Nat := 152
def k1125LineInterlace169AR_240 : Nat := 153
def k525LineProgressive169AR : Nat := 200
def k625LineProgressive169AR : Nat := 201
def k750LineProgressive169AR : Nat := 202
def k1125LineProgressive169AR : Nat := 203
def k255 : Nat := 255

/-- dpx::Packing codes. -/
def kPacked : Nat := 0
def kFilledMethodA : Nat := 1
def kFilledMethodB : Nat := 2

/-- dpx::Encoding code for kRLE. -/
def kRLE : Nat := 1

/-- The 32-bit unsigned sentinel 0xFFFFFFFF. -/
def undefU32 : Nat := 4294967295

/-- The byte sentinel 0xFF. -/
def undefU8 : Nat := 255

/-! ### The header record -/

/-- The decoded DPX header, as consumed by seek_subimage: every field or
typed accessor of dpx::Header that dpxinput.cpp reads. Per-element
accessors are functions of the element index. Char-array fields are lists
of byte values of the declared fixed width; `userDataBytes` stands for the
contents of the user-data region of the stream, delivered by
dpx::Reader::ReadUserData. -/
structure Header where
  imageElementCount : Nat
  width : Nat
  height : Nat
  xOffset : Nat
  yOffset : Nat
  xOriginalSize : Nat
  yOriginalSize : Nat
  componentDataSize : Nat → Nat
  dataSign : Nat → Nat
  imageElementComponentCount : Nat → Nat
  imageDescriptor : Nat → Nat
  bitDepth : Nat → Nat
  imageOrientation : Nat
  transfer : Nat → Nat
  colorimetric : Nat → Nat
  gamma : F32
  copyright : List Nat
  creator : List Nat
  project : List Nat
  creationTimeDate : List Nat
  imageEncoding : Nat → Nat
  description : Nat → List Nat
  aspectRatio : Nat → Nat
  encryptKey : Nat
  dittoKey : Nat
  lowData : Nat → Nat
  lowQuantity : Nat → F32
  highData : Nat → Nat
  highQuantity : Nat → F32
  endOfLinePadding : Nat → Nat
  endOfImagePadding : Nat → Nat
  xScannedSize : F32
  yScannedSize : F32
  framePosition : Nat
  sequenceLength : Nat
  heldCount : Nat
  frameRate : F32
  shutterAngle : F32
  version : List Nat
  format : List Nat
  frameId : List Nat
  slateInfo : List Nat
  sourceImageFileName : List Nat
  inputDevice : List Nat
  inputDeviceSerialNumber : List Nat
  interlace : Nat
  fieldNumber : Nat
  horizontalSampleRate : F32
  verticalSampleRate : F32
  temporalFrameRate : F32
  timeOffset : F32
  blackLevel : F32
  blackGain : F32
  breakPoint : F32
  whiteLevel : F32
  integrationTimes : F32
  imagePacking : Nat → Nat
  filmManufacturingIdCode : List Nat
  filmType : List Nat
  prefixCode : List Nat
  count : List Nat
  perfsOffset : List Nat
  timeCode : Nat
  userBits : Nat
  sourceTimeDate : List Nat
  filmEdgeCode : List Nat
  signal : Nat
  userSize : Nat
  userDataBytes : List Nat

/-- The C-string value of a fixed char field: the bytes up to the first
NUL, as handed to ImageSpec::attribute. -/
def cstr (v : List Nat) : List Nat := v.takeWhile (fun b => b != 0)

/-- Guard applied to fixed string fields before emitting them ("some
non-compliant writers will dump a field filled with 0xFF rather than a
NULL string termination on the first character"): the first byte must be
neither 0 nor 0xFF. -/
def strOk (v : List Nat) : Bool :=
  match v.head? with
  | some b => b != 0 && b != 255
  | none => false

/-- Guard testing only that the first byte of a char field is nonzero
(used for the date fields and the film edge code). -/
def headNonzero (v : List Nat) : Bool :=
  match v.head? with
  | some b => b != 0
  | none => false

/-- The DateTime / dpx:SourceDateTime value: Strutil::safe_strcpy of the
24-byte date field into a local buffer, then buffer[10] := ' ' and
buffer[19] := NUL, emitted as a C string. -/
def dateTransform (v : List Nat) : List Nat :=
  let c := (cstr v).take 23
  let buf := c ++ List.replicate (24 - c.length) 0
  cstr ((buf.set 10 32).set 19 0)

/-- Division as performed on the header's aspect-ratio words, made
partial: dividing by zero is not a value. -/
def qdiv (a b : Rat) : Option Rat := if b = 0 then none else some (a / b)

/-- The PixelAspectRatio value of seek_subimage:
`AspectRatio(1) ? AspectRatio(0) / (float)AspectRatio(1) : 1.0f`. -/
def pixelAspect (h : Header) : Option Rat :=
  if h.aspectRatio 1 ≠ 0 then
    qdiv (h.aspectRatio 0 : Rat) (h.aspectRatio 1 : Rat)
  else some 1

/-- The static table of DPXInput::get_characteristic_string. -/
def characteristicTable : List (Nat × String) :=
  [(kUserDefined, "User defined"),
   (kPrintingDensity, "Printing density"),
   (kLinear, "Linear"),
   (kLogarithmic, "Logarithmic"),
   (kUnspecifiedVideo, "Unspecified video"),
   (kSMPTE274M, "SMPTE 274M"),
   (kITUR709, "ITU-R 709-4"),
   (kITUR601, "ITU-R 601-5 system B or G"),
   (kITUR602, "ITU-R 601-5 system M"),
   (kNTSCCompositeVideo, "NTSC composite video"),
   (kPALCompositeVideo, "PAL composite video"),
   (kZLinear, "Z depth linear"),
   (kZHomogeneous, "Z depth homogeneous"),
   (kADX, "ADX"),
   (kUndefinedCharacteristic, "Undefined")]

/-- Shallow embedding of DPXInput::get_characteristic_string. -/
def get_characteristic_string (c : Nat) : String :=
  lookup c characteristicTable "Undefined"

/-- The static table of DPXInput::get_descriptor_string. -/
def descriptorTable : List (Nat × String) :=
  [(kUserDefinedDescriptor, "User defined"),
   (kUserDefined2Comp, "User defined"),
   (kUserDefined3Comp, "User defined"),
   (kUserDefined4Comp, "User defined"),
   (kUserDefined5Comp, "User defined"),
   (kUserDefined6Comp, "User defined"),
   (kUserDefined7Comp, "User defined"),
   (kUserDefined8Comp, "User defined"),
   (kRed, "Red"),
   (kGreen, "Green"),
   (kBlue, "Blue"),
   (kAlpha, "Alpha"),
   (kLuma, "Luma"),
   (kColorDifference, "Color difference"),
   (kDepth, "Depth"),
   (kCompositeVideo, "Composite video"),
   (kRGB, "RGB"),
   (kRGBA, "RGBA"),
   (kABGR, "ABGR"),
   (kCbYCrY, "CbYCrY"),
   (kCbYACrYA, "CbYACrYA"),
   (kCbYCr, "CbYCr"),
   (kCbYCrA, "CbYCrA")]

/-- Shallow embedding of DPXInput::get_descriptor_string. -/
def get_descriptor_string (c : Nat) : String :=
  lookup c descriptorTable "Undefined"

/-- The orientation table of seek_subimage, mapping dpx::Orientation codes
to the OIIO Orientation metadata integers. -/
def orientationTable : List (Nat × Int) :=
  [(kLeftToRightTopToBottom, 1),
   (kRightToLeftTopToBottom, 2),
   (kLeftToRightBottomToTop, 4),
   (kRightToLeftBottomToTop, 3),
   (kTopToBottomLeftToRight, 5),
   (kTopToBottomRightToLeft, 6),
   (kBottomToTopLeftToRight, 8),
   (kBottomToTopRightToLeft, 7)]

/-- The signal_table of seek_subimage. A `none` value stands for the
nullptr entry, whose meaning is: do not set the attribute at all. -/
def signalTable : List (Nat × Option String) :=
  [(kUndefined, some "Undefined"),
   (kNTSC, some "NTSC"),
   (kPAL, some "PAL"),
   (kPAL_M, some "PAL-M"),
   (kSECAM, some "SECAM"),
   (k525LineInterlace43AR, some "YCbCr ITU-R 601-5 525i, 4:3"),
   (k625LineInterlace43AR, some "YCbCr ITU-R 601-5 625i, 4:3"),
   (k525LineInterlace169AR, some "YCbCr ITU-R 601-5 525i, 16:9"),
   (k625LineInterlace169AR, some "YCbCr ITU-R 601-5 625i, 16:9"),
   (k1050LineInterlace169AR, some "YCbCr 1050i, 16:9"),
   (k1125LineInterlace169AR_274, some "YCbCr 1125i, 16:9 (SMPTE 274M)"),
   (k1250LineInterlace169AR, some "YCbCr 1250i, 16:9"),
   (k1125LineInterlace169AR_240, some "YCbCr 1125i, 16:9 (SMPTE 240M)"),
   (k525LineProgressive169AR, some "YCbCr 525p, 16:9"),
   (k625LineProgressive169AR, some "YCbCr 625p, 16:9"),
   (k750LineProgressive169AR, some "YCbCr 750p, 16:9 (SMPTE 296M)"),
   (k1125LineProgressive169AR, some "YCbCr 1125p, 16:9 (SMPTE 274M)"),
   (k255, none)]

/-- The dpx:Signal value: the shared lookup over signal_table with default
"Undefined"; `none` (the nullptr entry) means the attribute is skipped. -/
def signalOpt (h : Header) : Option String :=
  lookup h.signal signalTable (some "Undefined")

/-- Shallow embedding of DPXInput::get_keycode_values. The first five
entries parse fixed-width digit substrings of the film fields; the last
two are the perforation constants derived from the format field. -/
def get_keycode_values (h : Header) : List Int :=
  [stoi (h.filmManufacturingIdCode.take 2),
   stoi (h.filmType.take 2),
   stoi (h.prefixCode.take 6),
   stoi (h.count.take 4),
   stoi (h.perfsOffset.take 2),
   (perfsOf h.format).1,
   (perfsOf h.format).2]

/-- The OIIO TypeDesc basetypes that the component-size switch of
seek_subimage can produce. -/
inductive TD where
  | int8 | uint8 | int16 | uint16 | int32 | uint32 | float32 | float64
  deriving DecidableEq, Repr

/-- The component-size switch at the top of seek_subimage: maps the
element's ComponentDataSize code (and DataSign) to a TypeDesc, or `none`
for any unsupported code (the "Invalid component data size" error). -/
def typeDescOf (h : Header) (i : Nat) : Option TD :=
  if h.componentDataSize i = kByte then
    some (if h.dataSign i ≠ 0 then TD.int8 else TD.uint8)
  else if h.componentDataSize i = kWord then
    some (if h.dataSign i ≠ 0 then TD.int16 else TD.uint16)
  else if h.componentDataSize i = kInt then
    some (if h.dataSign i ≠ 0 then TD.int32 else TD.uint32)
  else if h.componentDataSize i = kFloat then some TD.float32
  else if h.componentDataSize i = kDouble then some TD.float64
  else none

/-- Modelled from the spec: ImageSpec::default_channel_names of the host
image library (not part of src/). Names the first four channels R, G, B, A
(A marking the alpha channel) and any further ones channelN. Only its use
sites matter here; no claim depends on the particular names it yields. -/
def defaultChannelNames (n : Nat) : List String :=
  (if 1 ≤ n then ["R"] else []) ++ (if 2 ≤ n then ["G"] else [])
    ++ (if 3 ≤ n then ["B"] else []) ++ (if 4 ≤ n then ["A"] else [])
    ++ (((List.range n).drop 4).map (fun c => "channel" ++ Nat.repr c))

/-- Alpha-channel index established by default_channel_names. -/
def defaultAlpha (n : Nat) : Int := if 4 ≤ n then 3 else -1

/-- Result of the channel-name switch of seek_subimage. -/
structure ChanInfo where
  names : List String
  nch : Nat
  alpha : Int
  zch : Int
  deriving DecidableEq, Repr

/-- The channel-name switch of seek_subimage over the element's
ImageDescriptor. `nch0` is the nchannels the ImageSpec constructor set
(the element's component count); the kCbYCrY / kCbYACrYA cases override it
in the non-raw branches. -/
def channelInfo (h : Header) (i : Nat) (raw : Bool) : ChanInfo :=
  let nch0 := h.imageElementComponentCount i
  let d := h.imageDescriptor i
  if d = kRed then ⟨["R"], nch0, -1, -1⟩
  else if d = kGreen then ⟨["G"], nch0, -1, -1⟩
  else if d = kBlue then ⟨["B"], nch0, -1, -1⟩
  else if d = kAlpha then ⟨["A"], nch0, 0, -1⟩
  else if d = kLuma then ⟨["Y"], nch0, -1, -1⟩
  else if d = kDepth then ⟨["Z"], nch0, -1, 0⟩
  else if d = kRGB ∨ d = kRGBA ∨ d = kABGR then
    ⟨defaultChannelNames nch0, nch0, defaultAlpha nch0, -1⟩
  else if d = kCbYCrY then
    (if raw then ⟨["CbCr", "Y"], nch0, -1, -1⟩
     else ⟨defaultChannelNames 3, 3, defaultAlpha 3, -1⟩)
  else if d = kCbYACrYA then
    (if raw then ⟨["CbCr", "Y", "A"], nch0, 2, -1⟩
     else ⟨defaultChannelNames 4, 4, defaultAlpha 4, -1⟩)
  else if d = kCbYCr then
    (if raw then ⟨["Cb", "Y", "Cr"], nch0, -1, -1⟩
     else ⟨defaultChannelNames nch0, nch0, defaultAlpha nch0, -1⟩)
  else if d = kCbYCrA then
    (if raw then ⟨["Cb", "Y", "Cr", "A"], nch0, 3, -1⟩
     else ⟨defaultChannelNames nch0, nch0, defaultAlpha nch0, -1⟩)
  else
    ⟨(List.range nch0).map (fun c => "channel" ++ Nat.repr c), nch0, -1, -1⟩

/-- A header field as consumed by one of the DPX_SET_ATTRIB_* macros, with
its sentinel kind. -/
inductive FieldVal where
  /-- a 32-bit unsigned field (sentinel 0xFFFFFFFF) -/
  | intF (v : Nat)
  /-- a float field (sentinel NaN) -/
  | fltF (v : F32)
  /-- a byte field (sentinel 0xFF) -/
  | byteF (v : Nat)
  /-- a fixed char field (skipped when its first byte is 0 or 0xFF) -/
  | strF (v : List Nat)
  deriving DecidableEq, Repr

/-- The guard each DPX_SET_ATTRIB_* macro places in front of
m_spec.attribute: DPX_SET_ATTRIB_INT tests the field against 0xFFFFFFFF,
DPX_SET_ATTRIB_FLOAT tests std::isnan, DPX_SET_ATTRIB_BYTE tests against
0xFF, and DPX_SET_ATTRIB_STR tests the first byte against both NUL and
0xFF. -/
def emitCond : FieldVal → Bool
  | .intF v => v != 4294967295
  | .fltF v => !v.isNan
  | .byteF v => v != 255
  | .strF v => strOk v

/-- The attribute value a DPX_SET_ATTRIB_* macro stores when its guard
passes. -/
def fieldVal : FieldVal → AttrVal
  | .intF v => .u v
  | .fltF v => .q v.val
  | .byteF v => .u v
  | .strF v => .bytes (cstr v)

/-- Transcription of the claim's sentinel definition (0xFFFFFFFF for
32-bit unsigned fields, NaN for float fields, 0xFF in the first byte of
fixed-length string fields, 0xFF for byte fields), for comparison against
the guards the code actually applies. -/
def specSentinel : FieldVal → Bool
  | .intF v => v == 4294967295
  | .fltF v => v.isNan
  | .byteF v => v == 255
  | .strF v => v.head? == some 255

/-- The DPX_SET_ATTRIB_* block of seek_subimage, in source order: each
entry is the attribute name together with the header field (and its
sentinel kind) behind it. -/
def macroFields (h : Header) (i : Nat) : List (String × FieldVal) :=
  [("dpx:EncryptKey", .intF h.encryptKey),
   ("dpx:DittoKey", .intF h.dittoKey),
   ("dpx:LowData", .intF (h.lowData i)),
   ("dpx:LowQuantity", .fltF (h.lowQuantity i)),
   ("dpx:HighData", .intF (h.highData i)),
   ("dpx:HighQuantity", .fltF (h.highQuantity i)),
   ("dpx:EndOfLinePadding", .intF (h.endOfLinePadding i)),
   ("dpx:EndOfImagePadding", .intF (h.endOfImagePadding i)),
   ("dpx:XScannedSize", .fltF h.xScannedSize),
   ("dpx:YScannedSize", .fltF h.yScannedSize),
   ("dpx:FramePosition", .intF h.framePosition),
   ("dpx:SequenceLength", .intF h.sequenceLength),
   ("dpx:HeldCount", .intF h.heldCount),
   ("dpx:FrameRate", .fltF h.frameRate),
   ("dpx:ShutterAngle", .fltF h.shutterAngle),
   ("dpx:Version", .strF h.version),
   ("dpx:Format", .strF h.format),
   ("dpx:FrameId", .strF h.frameId),
   ("dpx:SlateInfo", .strF h.slateInfo),
   ("dpx:SourceImageFileName", .strF h.sourceImageFileName),
   ("dpx:InputDevice", .strF h.inputDevice),
   ("dpx:InputDeviceSerialNumber", .strF h.inputDeviceSerialNumber),
   ("dpx:Interlace", .byteF h.interlace),
   ("dpx:FieldNumber", .byteF h.fieldNumber),
   ("dpx:HorizontalSampleRate", .fltF h.horizontalSampleRate),
   ("dpx:VerticalSampleRate", .fltF h.verticalSampleRate),
   ("dpx:TemporalFrameRate", .fltF h.temporalFrameRate),
   ("dpx:TimeOffset", .fltF h.timeOffset),
   ("dpx:BlackLevel", .fltF h.blackLevel),
   ("dpx:BlackGain", .fltF h.blackGain),
   ("dpx:BreakPoint", .fltF h.breakPoint),
   ("dpx:WhiteLevel", .fltF h.whiteLevel),
   ("dpx:IntegrationTimes", .fltF h.integrationTimes)]

/-- One DPX_SET_ATTRIB_* invocation as a guarded attribute write. -/
def macroTriple (nf : String × FieldVal) : Bool × String × AttrVal :=
  (emitCond nf.2, nf.1, fieldVal nf.2)

/-- ImageSpec::attribute: replace the value of an existing attribute of
that name, or append a new one. -/
def setAttr (attrs : List (String × AttrVal)) (n : String) (v : AttrVal) :
    List (String × AttrVal) :=
  match attrs with
  | [] => [(n, v)]
  | p :: rest => if p.1 = n then (n, v) :: rest else p :: setAttr rest n v

/-- Metadata lookup: the first attribute of the given name. -/
def lookupAttr (n : String) (attrs : List (String × AttrVal)) :
    Option AttrVal :=
  (attrs.find? (fun p => p.1 == n)).map Prod.snd

/-- Run a sequence of guarded attribute writes (condition, name, value)
left to right. -/
def applyAttrs (init : List (String × AttrVal))
    (l : List (Bool × String × AttrVal)) : List (String × AttrVal) :=
  l.foldl (fun acc t => if t.1 then setAttr acc t.2.1 t.2.2 else acc) init

/-- The colorspace tag set by the image-linearity switch of seek_subimage:
Linear / KodakLog / Rec709 for the three recognized transfer codes, the
rec709-gamma tag when the transfer is user-defined with a usable gamma,
and nothing otherwise. -/
def csVal (h : Header) (i : Nat) : Option AttrVal :=
  if h.transfer i = kLinear then some (.s "Linear")
  else if h.transfer i = kLogarithmic then some (.s "KodakLog")
  else if h.transfer i = kITUR709 then some (.s "Rec709")
  else if h.transfer i = kUserDefined ∧ ¬h.gamma.isNan ∧ h.gamma.val ≠ 0 then
    some (.gammaSpace h.gamma.val)
  else none

/-- The dpx:Packing string switch; the empty string (any other packing
code) suppresses the attribute. -/
def packingStr (p : Nat) : String :=
  if p = kPacked then "Packed"
  else if p = kFilledMethodA then "Filled, method A"
  else if p = kFilledMethodB then "Filled, method B"
  else ""

/-- The guarded attribute writes performed by seek_subimage before the
DPX_SET_ATTRIB_* block, in source order. -/
def preTriples (h : Header) (i : Nat) : List (Bool × String × AttrVal) :=
  [(true, "oiio:BitsPerSample", .u (h.bitDepth i)),
   (true, "Orientation", .i (lookup h.imageOrientation orientationTable 1)),
   (true, "oiio:subimages", .i (h.imageElementCount : Int)),
   ((csVal h i).isSome, "oiio:ColorSpace", (csVal h i).getD (.s "")),
   (true, "dpx:Transfer", .s (get_characteristic_string (h.transfer i))),
   (true, "dpx:Colorimetric", .s (get_characteristic_string (h.colorimetric i))),
   (strOk h.copyright, "Copyright", .bytes (cstr h.copyright)),
   (strOk h.creator, "Software", .bytes (cstr h.creator)),
   (strOk h.project, "DocumentName", .bytes (cstr h.project)),
   (headNonzero h.creationTimeDate, "DateTime", .bytes (dateTransform h.creationTimeDate)),
   (h.imageEncoding i == kRLE, "compression", .s "rle"),
   (strOk ((h.description i).take 32), "ImageDescription", .bytes (cstr ((h.description i).take 32))),
   (true, "PixelAspectRatio", .q ((pixelAspect h).getD 0)),
   (true, "dpx:ImageDescriptor", .s (get_descriptor_string (h.imageDescriptor i)))]

/-- The guarded attribute writes performed by seek_subimage after the
DPX_SET_ATTRIB_* block, in source order. `ubuf` is the user-data buffer as
it stands after the lazy read. -/
def postTriples (h : Header) (i : Nat) (ubuf : List Nat) :
    List (Bool × String × AttrVal) :=
  [(!(packingStr (h.imagePacking i)).isEmpty, "dpx:Packing", .s (packingStr (h.imagePacking i))),
   (headNonzero h.filmManufacturingIdCode, "smpte:KeyCode", .keycode (get_keycode_values h)),
   (h.timeCode != 4294967295, "smpte:TimeCode", .timecode h.timeCode h.userBits),
   (h.timeCode != 4294967295, "dpx:TimeCode", .s (get_timecode_string (timeCodeOfWord h.timeCode))),
   (h.userBits != 4294967295, "dpx:UserBits", .u h.userBits),
   (headNonzero h.sourceTimeDate, "dpx:SourceDateTime", .bytes (dateTransform h.sourceTimeDate)),
   (headNonzero h.filmEdgeCode, "dpx:FilmEdgeCode", .bytes (cstr h.filmEdgeCode)),
   ((signalOpt h).isSome, "dpx:Signal", .s ((signalOpt h).getD "")),
   (!ubuf.isEmpty, "dpx:UserData", .bytes ubuf)]

/-- Every guarded attribute write of seek_subimage, in source order. -/
def attrTriples (h : Header) (i : Nat) (ubuf : List Nat) :
    List (Bool × String × AttrVal) :=
  preTriples h i ++ (macroFields h i).map macroTriple ++ postTriples h i ubuf

/-- The ImageSpec produced by a successful seek_subimage. -/
structure SpecRec where
  width : Nat
  height : Nat
  nchannels : Nat
  typedesc : TD
  x : Int
  y : Int
  full_width : Int
  full_height : Int
  channelnames : List String
  alpha_channel : Int
  z_channel : Int
  attrs : List (String × AttrVal)
  deriving DecidableEq, Repr

/-- Reinterpretation of a 32-bit unsigned value as a signed int, as in the
`(int)xOriginalSize > 0` casts of seek_subimage. -/
def toInt32 (n : Nat) : Int := if n < 2 ^ 31 then (n : Int) else (n : Int) - 2 ^ 32

/-- The ImageSpec computed by a successful seek_subimage for element `i`:
constructor geometry, the guarded x/y offset and full-size overrides, the
channel-name switch, and the whole metadata block. -/
def deriveSpec (h : Header) (i : Nat) (raw : Bool) (td : TD)
    (ubuf : List Nat) : SpecRec :=
  let ci := channelInfo h i raw
  { width := h.width
    height := h.height
    nchannels := ci.nch
    typedesc := td
    x := if h.xOffset ≤ 2 ^ 31 - 1 then (h.xOffset : Int) else 0
    y := if h.yOffset ≤ 2 ^ 31 - 1 then (h.yOffset : Int) else 0
    full_width := if 0 < toInt32 h.xOriginalSize then (h.xOriginalSize : Int) else (h.width : Int)
    full_height := if 0 < toInt32 h.yOriginalSize then (h.yOriginalSize : Int) else (h.height : Int)
    channelnames := ci.names
    alpha_channel := ci.alpha
    z_channel := ci.zch
    attrs := applyAttrs [] (attrTriples h i ubuf) }

/-- The mutable state of one DPXInput instance, after open has parsed the
header: the selected subimage, the cached user-data buffer, the rawcolor
flag and the current ImageSpec. `userDataReads` instruments the model,
counting the ReadUserData stream reads the instance has issued. -/
structure DPXState where
  m_subimage : Int
  header : Header
  m_userBuf : List Nat
  m_rawcolor : Bool
  m_spec : SpecRec
  userDataReads : Nat

/-- DPXInput::current_subimage. -/
def current_subimage (s : DPXState) : Int := s.m_subimage

/-- The bytes ReadUserData delivers into the resized buffer: UserSize()
bytes of the user-data region (zero-filled past the end of the region, so
the buffer always has length UserSize()). -/
def readUserBytes (h : Header) : List Nat :=
  h.userDataBytes.take h.userSize
    ++ List.replicate (h.userSize - h.userDataBytes.length) 0

/-- The lazy-read condition of seek_subimage: the user-data cache is empty
and UserSize() is neither 0 nor the 0xFFFFFFFF sentinel. -/
def readNowB (s : DPXState) : Bool :=
  s.m_userBuf.isEmpty && s.header.userSize != 0
    && s.header.userSize != 4294967295

/-- The user-data buffer after the lazy-read step of seek_subimage. -/
def ubufAfter (s : DPXState) : List Nat :=
  if readNowB s then readUserBytes s.header else s.m_userBuf

/-- Shallow embedding of DPXInput::seek_subimage. Returns the boolean
result together with the state of the instance after the call. The guard
order matches the source: nonzero miplevel fails; an already-selected
index is a no-op success; an out-of-range index fails with the state
untouched; then m_subimage is updated, the component-size switch may fail
(leaving the updated m_subimage behind), and otherwise the ImageSpec is
derived, user data is read if the cache is empty and UserSize() is neither
0 nor 0xFFFFFFFF, and the rawcolor flag is latched for single-channel
specs. -/
def seek_subimage (s : DPXState) (subimage : Int) (miplevel : Int) :
    Bool × DPXState :=
  if miplevel ≠ 0 then (false, s)
  else if subimage = s.m_subimage then (true, s)
  else if subimage < 0 ∨ (s.header.imageElementCount : Int) ≤ subimage then (false, s)
  else
    match typeDescOf s.header subimage.toNat with
    | none => (false, { s with m_subimage := subimage })
    | some td =>
      (true,
       { s with
         m_subimage := subimage
         m_userBuf := ubufAfter s
         m_spec := deriveSpec s.header subimage.toNat s.m_rawcolor td (ubufAfter s)
         m_rawcolor :=
           if (deriveSpec s.header subimage.toNat s.m_rawcolor td (ubufAfter s)).nchannels = 1
           then true else s.m_rawcolor
         userDataReads := s.userDataReads + (if readNowB s then 1 else 0) })

/-- Which decode path DPXInput::read_native_scanlines takes. -/
inductive ReadPath where
  /-- the fast path: ReadBlock straight into the caller's buffer -/
  | raw
  /-- ReadBlock into the decode buffer followed by ConvertToRGB -/
  | convert
  deriving DecidableEq, Repr

/-- The seek-and-dispatch skeleton of DPXInput::read_native_scanlines: the
call first seeks to the requested subimage and then chooses the raw or the
color-converting path by the rawcolor flag. (The block read itself and the
color conversion live in libdpx and are outside src/; the claims about
this function concern only which path is taken.) -/
def read_native_scanlines (s : DPXState) (subimage miplevel : Int) :
    Bool × DPXState × Option ReadPath :=
  let r := seek_subimage s subimage miplevel
  if r.1 then
    (true, r.2, some (if r.2.m_rawcolor then ReadPath.raw else ReadPath.convert))
  else (false, r.2, none)

/-- Fold a list of seek_subimage calls over an instance state. -/
def applySeeks (s : DPXState) (ops : List (Int × Int)) : DPXState :=
  ops.foldl (fun st p => (seek_subimage st p.1 p.2).2) s

/-- The attribute names seek_subimage can write, in write order. (The name
list is independent of the header contents; only the guards and values
depend on them.) -/
def attrNames : List String :=
  ["oiio:BitsPerSample", "Orientation", "oiio:subimages", "oiio:ColorSpace",
   "dpx:Transfer", "dpx:Colorimetric", "Copyright", "Software",
   "DocumentName", "DateTime", "compression", "ImageDescription",
   "PixelAspectRatio", "dpx:ImageDescriptor",
   "dpx:EncryptKey", "dpx:DittoKey", "dpx:LowData", "dpx:LowQuantity",
   "dpx:HighData", "dpx:HighQuantity", "dpx:EndOfLinePadding",
   "dpx:EndOfImagePadding", "dpx:XScannedSize", "dpx:YScannedSize",
   "dpx:FramePosition", "dpx:SequenceLength", "dpx:HeldCount",
   "dpx:FrameRate", "dpx:ShutterAngle", "dpx:Version", "dpx:Format",
   "dpx:FrameId", "dpx:SlateInfo", "dpx:SourceImageFileName",
   "dpx:InputDevice", "dpx:InputDeviceSerialNumber", "dpx:Interlace",
   "dpx:FieldNumber", "dpx:HorizontalSampleRate", "dpx:VerticalSampleRate",
   "dpx:TemporalFrameRate", "dpx:TimeOffset", "dpx:BlackLevel",
   "dpx:BlackGain", "dpx:BreakPoint", "dpx:WhiteLevel",
   "dpx:IntegrationTimes",
   "dpx:Packing", "smpte:KeyCode", "smpte:TimeCode", "dpx:TimeCode",
   "dpx:UserBits", "dpx:SourceDateTime", "dpx:FilmEdgeCode", "dpx:Signal",
   "dpx:UserData"]

/-! ### Concrete instances for witnesses -/

/-- A concrete header whose optional fields are all at their sentinel (or
empty) values: two image elements, 8-bit luma. -/
def hdr0 : Header :=
  { imageElementCount := 2
    width := 4
    height := 2
    xOffset := 0
    yOffset := 0
    xOriginalSize := 0
    yOriginalSize := 0
    componentDataSize := fun _ => 0
    dataSign := fun _ => 0
    imageElementComponentCount := fun _ => 1
    imageDescriptor := fun _ => 6
    bitDepth := fun _ => 8
    imageOrientation := 0
    transfer := fun _ => 2
    colorimetric := fun _ => 2
    gamma := ⟨true, 0⟩
    copyright := List.replicate 200 0
    creator := List.replicate 100 0
    project := List.replicate 200 0
    creationTimeDate := List.replicate 24 0
    imageEncoding := fun _ => 0
    description := fun _ => List.replicate 32 0
    aspectRatio := fun _ => 0
    encryptKey := 4294967295
    dittoKey := 4294967295
    lowData := fun _ => 4294967295
    lowQuantity := fun _ => ⟨true, 0⟩
    highData := fun _ => 4294967295
    highQuantity := fun _ => ⟨true, 0⟩
    endOfLinePadding := fun _ => 4294967295
    endOfImagePadding := fun _ => 4294967295
    xScannedSize := ⟨true, 0⟩
    yScannedSize := ⟨true, 0⟩
    framePosition := 4294967295
    sequenceLength := 4294967295
    heldCount := 4294967295
    frameRate := ⟨true, 0⟩
    shutterAngle := ⟨true, 0⟩
    version := List.replicate 8 0
    format := List.replicate 32 0
    frameId := List.replicate 32 0
    slateInfo := List.replicate 100 0
    sourceImageFileName := List.replicate 100 0
    inputDevice := List.replicate 32 0
    inputDeviceSerialNumber := List.replicate 32 0
    interlace := 255
    fieldNumber := 255
    horizontalSampleRate := ⟨true, 0⟩
    verticalSampleRate := ⟨true, 0⟩
    temporalFrameRate := ⟨true, 0⟩
    timeOffset := ⟨true, 0⟩
    blackLevel := ⟨true, 0⟩
    blackGain := ⟨true, 0⟩
    breakPoint := ⟨true, 0⟩
    whiteLevel := ⟨true, 0⟩
    integrationTimes := ⟨true, 0⟩
    imagePacking := fun _ => 0
    filmManufacturingIdCode := List.replicate 2 0
    filmType := List.replicate 2 0
    prefixCode := List.replicate 6 0
    count := List.replicate 4 0
    perfsOffset := List.replicate 2 0
    timeCode := 4294967295
    userBits := 4294967295
    sourceTimeDate := List.replicate 24 0
    filmEdgeCode := List.replicate 16 0
    signal := 0
    userSize := 0
    userDataBytes := [] }

/-- An empty ImageSpec, for initial states. -/
def spec0 : SpecRec :=
  { width := 0, height := 0, nchannels := 0, typedesc := TD.uint8,
    x := 0, y := 0, full_width := 0, full_height := 0, channelnames := [],
    alpha_channel := -1, z_channel := -1, attrs := [] }

/-- A concrete instance state with subimage 0 of hdr0 selected. -/
def st0 : DPXState :=
  { m_subimage := 0, header := hdr0, m_userBuf := [], m_rawcolor := false,
    m_spec := spec0, userDataReads := 0 }

/-- hdr0 with a non-sentinel EncryptKey and a nonempty copyright string. -/
def hdrC1 : Header :=
  { hdr0 with
    encryptKey := 7
    copyright := strBytes "ab" ++ List.replicate 198 0 }

/-- hdr0 with element 1 given an unsupported component-size code. -/
def hdrBad : Header :=
  { hdr0 with componentDataSize := fun k => if k = 1 then 99 else 0 }

/-- st0 on hdrBad. -/
def stBad : DPXState := { st0 with header := hdrBad }

/-- hdr0 with element 0 a 1-channel luma element and element 1 a CbYCrY
(4:2:2) element of two stored components. -/
def hdrW : Header :=
  { hdr0 with
    imageDescriptor := fun k => if k = 1 then 100 else 6
    imageElementComponentCount := fun k => if k = 1 then 2 else 1 }

/-- A freshly-opened instance on hdrW (no subimage selected yet). -/
def stPre : DPXState :=
  { m_subimage := -1, header := hdrW, m_userBuf := [], m_rawcolor := false,
    m_spec := spec0, userDataReads := 0 }

/-- stPre with the rawcolor flag already latched. -/
def stRaw : DPXState := { stPre with m_rawcolor := true, m_subimage := 0 }

/-- hdr0 carrying the video-signal code 255 (the suppressed entry). -/
def hdrSig255 : Header := { hdr0 with signal := 255 }

/-- hdr0 carrying a video-signal code absent from signal_table. -/
def hdrSig42 : Header := { hdr0 with signal := 42 }

/-- hdr0 carrying the NTSC video-signal code. -/
def hdrSig1 : Header := { hdr0 with signal := 1 }

/-- hdr0 whose format field holds "8kimax" NUL-padded to 32 bytes, with a
keycode block present. -/
def hdr8k : Header :=
  { hdr0 with
    format := strBytes "8kimax" ++ List.replicate 26 0
    filmManufacturingIdCode := strBytes "02" }

/-- hdr0 with a nonzero user-data size and some user-data bytes. -/
def hdrU : Header :=
  { hdr0 with userSize := 3, userDataBytes := [10, 20, 30] }

/-- A freshly-opened instance on hdrU (no subimage selected yet). -/
def stU : DPXState :=
  { m_subimage := -1, header := hdrU, m_userBuf := [], m_rawcolor := false,
    m_spec := spec0, userDataReads := 0 }

/-! ### Properties of the shared lookup helper -/

theorem lookup_nil {α β : Type} [DecidableEq α] (key : α) (d : β) :
    lookup key ([] : List (α × β)) d = d := rfl

theorem lookup_cons {α β : Type} [DecidableEq α] (key : α) (p : α × β)
    (rest : List (α × β)) (d : β) :
    lookup key (p :: rest) d = if p.1 = key then p.2 else lookup key rest d := rfl

/-- When no key of the table matches, lookup falls back to the default. -/
theorem lookup_eq_default {α β : Type} [DecidableEq α] (key : α)
    (values : List (α × β)) (d : β) (h : key ∉ values.map Prod.fst) :
    lookup key values d = d := by
  induction values with
  | nil => rfl
  | cons p rest ih =>
    simp only [List.map_cons, List.mem_cons, not_or] at h
    rw [lookup_cons, if_neg (fun he => h.1 he.symm), ih h.2]

/-- With pairwise-distinct keys, lookup returns the value of the (unique)
matching pair. -/
theorem lookup_mem_nodup {α β : Type} [DecidableEq α] {key : α} {v : β}
    {values : List (α × β)} (d : β) (hnd : (values.map Prod.fst).Nodup)
    (hmem : (key, v) ∈ values) : lookup key values d = v := by
  induction values with
  | nil => cases hmem
  | cons p rest ih =>
    rcases List.mem_cons.mp hmem with h | h
    · subst h; rw [lookup_cons, if_pos rfl]
    · have hk : key ∈ rest.map Prod.fst := List.mem_map.mpr ⟨(key, v), h, rfl⟩
      have hp : p.1 ≠ key := by
        intro he
        exact (List.nodup_cons.mp hnd).1 (he ▸ hk)
      rw [lookup_cons, if_neg hp]
      exact ih (List.nodup_cons.mp hnd).2 h

/-- First-match semantics of lookup: if the table splits as
`pre ++ (key, v) :: post` with no key of `pre` equal to `key`, the result
is `v` regardless of `post`. -/
theorem lookup_first_match {α β : Type} [DecidableEq α] (key : α) (v : β)
    (pre post : List (α × β)) (d : β) (hpre : ∀ p ∈ pre, p.1 ≠ key) :
    lookup key (pre ++ (key, v) :: post) d = v := by
  induction pre with
  | nil => rw [List.nil_append, lookup_cons, if_pos rfl]
  | cons p rest ih =>
    rw [List.cons_append, lookup_cons,
      if_neg (hpre p (List.mem_cons_self p rest))]
    exact ih (fun q hq => hpre q (List.mem_cons_of_mem p hq))

/-! ### Properties of the attribute list -/

theorem lookupAttr_nil (n : String) : lookupAttr n [] = none := rfl

theorem lookupAttr_cons (n : String) (p : String × AttrVal)
    (rest : List (String × AttrVal)) :
    lookupAttr n (p :: rest)
      = if p.1 = n then some p.2 else lookupAttr n rest := by
  by_cases h : p.1 = n
  · simp [lookupAttr, List.find?, h]
  · have hb : (p.1 == n) = false := beq_eq_false_iff_ne.mpr h
    simp [lookupAttr, List.find?, h, hb]

theorem setAttr_cons (p : String × AttrVal) (rest : List (String × AttrVal))
    (m : String) (v : AttrVal) :
    setAttr (p :: rest) m v
      = if p.1 = m then (m, v) :: rest else p :: setAttr rest m v := rfl

/-- Looking up after an ImageSpec::attribute write: the written name now
maps to the written value, every other name is unaffected. -/
theorem lookupAttr_setAttr (attrs : List (String × AttrVal)) (m n : String)
    (v : AttrVal) :
    lookupAttr n (setAttr attrs m v)
      = if m = n then some v else lookupAttr n attrs := by
  induction attrs with
  | nil =>
    by_cases h : m = n <;> simp [setAttr, lookupAttr_cons, lookupAttr_nil, h]
  | cons p rest ih =>
    by_cases hp : p.1 = m <;> by_cases hn : m = n
    · simp [setAttr_cons, lookupAttr_cons, hp, hn]
    · have hpn : ¬p.1 = n := fun he => hn (hp.symm.trans he)
      simp [setAttr_cons, lookupAttr_cons, hp, hn, hpn]
    · subst hn
      simp [setAttr_cons, lookupAttr_cons, hp, ih]
    · simp [setAttr_cons, lookupAttr_cons, hp, hn, ih]

theorem applyAttrs_nil (init : List (String × AttrVal)) :
    applyAttrs init [] = init := rfl

theorem applyAttrs_cons (init : List (String × AttrVal))
    (t : Bool × String × AttrVal) (l : List (Bool × String × AttrVal)) :
    applyAttrs init (t :: l)
      = applyAttrs (if t.1 then setAttr init t.2.1 t.2.2 else init) l := rfl

/-- Guarded writes to other names do not change a name's lookup. -/
theorem lookupAttr_applyAttrs_of_ne (l : List (Bool × String × AttrVal))
    (init : List (String × AttrVal)) (n : String)
    (h : ∀ t ∈ l, t.2.1 ≠ n) :
    lookupAttr n (applyAttrs init l) = lookupAttr n init := by
  induction l generalizing init with
  | nil => rfl
  | cons t l ih =>
    rw [applyAttrs_cons,
      ih _ (fun u hu => h u (List.mem_cons_of_mem t hu))]
    by_cases ht : t.1
    · rw [if_pos ht, lookupAttr_setAttr,
        if_neg (h t (List.mem_cons_self t l))]
    · rw [if_neg ht]

/-- The central lookup lemma: over a write list with pairwise-distinct
names, the guarded write (c, n, v) fully determines what the name n maps
to afterwards, provided n was unset before. -/
theorem lookupAttr_applyAttrs_mem {l : List (Bool × String × AttrVal)}
    {c : Bool} {n : String} {v : AttrVal} (init : List (String × AttrVal))
    (hmem : (c, n, v) ∈ l) (hnd : (l.map (fun t => t.2.1)).Nodup)
    (hinit : lookupAttr n init = none) :
    lookupAttr n (applyAttrs init l) = if c then some v else none := by
  induction l generalizing init with
  | nil => cases hmem
  | cons t l ih =>
    rw [List.map_cons] at hnd
    have hnd2 := List.nodup_cons.mp hnd
    rcases List.mem_cons.mp hmem with h | h
    · subst h
      rw [applyAttrs_cons,
        lookupAttr_applyAttrs_of_ne l _ n
          (fun u hu hun => hnd2.1 (List.mem_map.mpr ⟨u, hu, hun⟩))]
      by_cases hc : c
      · simp only [hc, if_true]
        rw [lookupAttr_setAttr, if_pos rfl]
      · simp only [hc, if_false]
        exact hinit
    · have hn : n ∈ l.map (fun t => t.2.1) :=
        List.mem_map.mpr ⟨(c, n, v), h, rfl⟩
      have htn : t.2.1 ≠ n := fun he => hnd2.1 (he ▸ hn)
      rw [applyAttrs_cons]
      refine ih _ h hnd2.2 ?_
      by_cases ht : t.1
      · rw [if_pos ht, lookupAttr_setAttr, if_neg htn]
        exact hinit
      · rwa [if_neg ht]

/-- The names written by seek_subimage do not depend on the header. -/
theorem attrTriples_names (h : Header) (i : Nat) (ubuf : List Nat) :
    (attrTriples h i ubuf).map (fun t => t.2.1) = attrNames := rfl

theorem attrNames_nodup : attrNames.Nodup := by decide

/-- What a successful seek's metadata assigns to the name of any one
guarded write: the written value when the guard passed, nothing
otherwise. -/
theorem lookupAttr_deriveSpec (raw : Bool) (td : TD) {h : Header} {i : Nat}
    {ubuf : List Nat} {c : Bool} {n : String} {v : AttrVal}
    (hmem : (c, n, v) ∈ attrTriples h i ubuf) :
    lookupAttr n (deriveSpec h i raw td ubuf).attrs
      = if c then some v else none := by
  have hnd : ((attrTriples h i ubuf).map (fun t => t.2.1)).Nodup := by
    rw [attrTriples_names]; exact attrNames_nodup
  exact lookupAttr_applyAttrs_mem [] hmem hnd rfl

/-! ### Claim theorems -/

/-- For values below 100, the 02d format spec renders exactly the two
zero-padded decimal digits. -/
theorem fmt02d_eq_twoDigits : ∀ n : Nat, n < 100 → fmt02d n = twoDigitsOf n := by
  decide

/-- C5: get_timecode_string renders hours, minutes, seconds and frame each
zero-padded to two digits, joined as HH:MM:SS-sep-FF with separator
semicolon exactly for drop-frame timecodes; in particular 1:2:3:4 renders
as "01:02:03:04" (non-drop) and "01:02:03;04" (drop). -/
theorem claim_C5_timecode :
    (∀ tc : TimeCodeRec, tc.hours < 100 → tc.minutes < 100 →
      tc.seconds < 100 → tc.frame < 100 →
      get_timecode_string tc
        = twoDigitsOf tc.hours ++ ":" ++ twoDigitsOf tc.minutes ++ ":"
            ++ twoDigitsOf tc.seconds ++ (if tc.dropFrame then ";" else ":")
            ++ twoDigitsOf tc.frame)
    ∧ get_timecode_string ⟨1, 2, 3, 4, false⟩ = "01:02:03:04"
    ∧ get_timecode_string ⟨1, 2, 3, 4, true⟩ = "01:02:03;04" := by
  refine ⟨?_, by decide, by decide⟩
  intro tc h1 h2 h3 h4
  simp only [get_timecode_string, fmt02d_eq_twoDigits tc.hours h1,
    fmt02d_eq_twoDigits tc.minutes h2, fmt02d_eq_twoDigits tc.seconds h3,
    fmt02d_eq_twoDigits tc.frame h4]

/-- Witness for C5 at the concrete timecode 1:2:3:4. -/
theorem claim_C5_witness :
    get_timecode_string ⟨1, 2, 3, 4, false⟩
      = twoDigitsOf 1 ++ ":" ++ twoDigitsOf 2 ++ ":" ++ twoDigitsOf 3
          ++ ":" ++ twoDigitsOf 4 := by
  have h := claim_C5_timecode.1 ⟨1, 2, 3, 4, false⟩ (by decide) (by decide)
    (by decide) (by decide)
  simpa using h

/-- C8: the shared lookup helper returns the value of the first pair in
table order whose code equals the key, and returns the default when no
pair's code matches. -/
theorem claim_C8_lookup {α β : Type} [DecidableEq α] (key : α)
    (values : List (α × β)) (d : β) :
    (∀ (pre : List (α × β)) (v : β) (post : List (α × β)),
        values = pre ++ (key, v) :: post → (∀ p ∈ pre, p.1 ≠ key) →
        lookup key values d = v)
    ∧ (key ∉ values.map Prod.fst → lookup key values d = d) := by
  constructor
  · intro pre v post he hpre
    rw [he]
    exact lookup_first_match key v pre post d hpre
  · intro h
    exact lookup_eq_default key values d h

/-- Witness for C8 on a concrete table with a duplicated code. -/
theorem claim_C8_witness :
    lookup 2 ([(1, "a"), (2, "b"), (2, "c")] : List (Nat × String)) "z" = "b"
    ∧ lookup 5 ([(1, "a"), (2, "b"), (2, "c")] : List (Nat × String)) "z" = "z" := by
  constructor
  · exact (claim_C8_lookup 2 [(1, "a"), (2, "b"), (2, "c")] "z").1
      [(1, "a")] "b" [(2, "c")] rfl (by decide)
  · exact (claim_C8_lookup 5 [(1, "a"), (2, "b"), (2, "c")] "z").2 (by decide)

/-- C2: evaluation of the keycode format matching. A format field holding
"8kimax" (NUL-padded to the 32-byte field width, as the format is stored)
yields the default perforation constants (4, 64), not the (15, 120) the
code's own dead branch intends: the exact-match comparisons compare all 32
bytes of the std::string against a short literal and can never succeed.
"Academy" and unrecognized strings yield (4, 64) as claimed, and no
32-byte field can ever reach a perfsPerCount other than 64. -/
theorem claim_C2_keycode_formats :
    perfsOf (strBytes "8kimax" ++ List.replicate 26 0) = (4, 64)
    ∧ perfsOf (strBytes "Academy" ++ List.replicate 25 0) = (4, 64)
    ∧ perfsOf (strBytes "NoSuchFormat" ++ List.replicate 20 0) = (4, 64)
    ∧ (∀ f : List Nat, f.length = 32 → (perfsOf f).2 = 64)
    ∧ (get_keycode_values hdr8k).drop 5 = [4, 64] := by
  refine ⟨by decide, by decide, by decide, ?_, by decide⟩
  intro f hf
  have ht : f.take 32 = f := List.take_of_length_le hf.le
  have hne : f ≠ strBytes "8kimax" := by
    intro he
    have hlen := congrArg List.length he
    rw [hf] at hlen
    exact absurd hlen (by decide)
  simp only [perfsOf]
  rw [ht, if_neg hne]
  split_ifs <;> rfl

/-- Witness for C2's universally quantified part at a concrete 32-byte
field. -/
theorem claim_C2_witness :
    (perfsOf (strBytes "8kimax" ++ List.replicate 26 0)).2 = 64 := by
  exact (claim_C2_keycode_formats.2.2.2.1
    (strBytes "8kimax" ++ List.replicate 26 0) (by decide))

/-- C10: the PixelAspectRatio computation never divides by zero: a zero
aspect-ratio denominator short-circuits to the value 1.0, and otherwise
the attribute holds numerator over denominator; either way the attribute
is present in the derived metadata. -/
theorem claim_C10_aspect_guard (h : Header) (i : Nat) (raw : Bool) (td : TD)
    (ubuf : List Nat) :
    ∃ q : Rat, pixelAspect h = some q
      ∧ (h.aspectRatio 1 = 0 → q = 1)
      ∧ (h.aspectRatio 1 ≠ 0 →
          qdiv (h.aspectRatio 0 : Rat) (h.aspectRatio 1 : Rat) = some q)
      ∧ lookupAttr "PixelAspectRatio" (deriveSpec h i raw td ubuf).attrs
          = some (.q q) := by
  have hmem : (true, "PixelAspectRatio",
      AttrVal.q ((pixelAspect h).getD 0)) ∈ attrTriples h i ubuf := by
    apply List.mem_append.mpr; left
    apply List.mem_append.mpr; left
    simp [preTriples]
  have hl := lookupAttr_deriveSpec raw td hmem
  rw [if_pos rfl] at hl
  by_cases hden : h.aspectRatio 1 = 0
  · have hq : pixelAspect h = some 1 := by
      rw [pixelAspect, if_neg (fun hne => hne hden)]
    refine ⟨1, hq, fun _ => rfl, fun hc => absurd hden hc, ?_⟩
    rw [hq] at hl
    simpa using hl
  · have hcast : ((h.aspectRatio 1 : Nat) : Rat) ≠ 0 := by
      exact_mod_cast hden
    have hq : pixelAspect h
        = some ((h.aspectRatio 0 : Rat) / (h.aspectRatio 1 : Rat)) := by
      rw [pixelAspect, if_pos hden, qdiv, if_neg hcast]
    refine ⟨_, hq, fun hc => absurd hc hden, fun _ => ?_, ?_⟩
    · rw [qdiv, if_neg hcast]
    · rw [hq] at hl
      simpa using hl

/-- Witness for C10 at hdr0, whose aspect-ratio denominator is zero. -/
theorem claim_C10_witness :
    pixelAspect hdr0 = some 1
    ∧ lookupAttr "PixelAspectRatio" (deriveSpec hdr0 0 false TD.uint8 []).attrs
        = some (.q 1) := by
  obtain ⟨q, hq, h0, _, hat⟩ := claim_C10_aspect_guard hdr0 0 false TD.uint8 []
  have h1 : q = 1 := h0 rfl
  subst h1
  exact ⟨hq, hat⟩

/-- C1 counterexample: the version field of hdr0 starts with a NUL byte —
not the 0xFF sentinel the claim defines for string fields — yet the
dpx:Version attribute is absent from the metadata of the selected
subimage, refuting "any non-sentinel value causes the attribute to be
present with that value". -/
theorem claim_C1_counterexample :
    ("dpx:Version", FieldVal.strF hdr0.version) ∈ macroFields hdr0 0
    ∧ specSentinel (FieldVal.strF hdr0.version) = false
    ∧ lookupAttr "dpx:Version" (deriveSpec hdr0 0 false TD.uint8 []).attrs
        = none := by
  refine ⟨by decide, by decide, by decide⟩

/-- C1 (amended): for every field of the DPX_SET_ATTRIB_* block, the
attribute is present exactly when the macro's guard passes — integer
fields unless equal to 0xFFFFFFFF, float fields unless NaN, byte fields
unless equal to 0xFF, and string fields unless the first byte is 0xFF or
NUL — and when present it carries the field's value; likewise for the
sentinel-guarded Copyright / Software / DocumentName strings and the
smpte:TimeCode / dpx:UserBits words. -/
theorem claim_C1_sentinel (h : Header) (i : Nat) (raw : Bool) (td : TD)
    (ubuf : List Nat) :
    (∀ nf ∈ macroFields h i,
      lookupAttr nf.1 (deriveSpec h i raw td ubuf).attrs
        = if emitCond nf.2 then some (fieldVal nf.2) else none)
    ∧ lookupAttr "Copyright" (deriveSpec h i raw td ubuf).attrs
        = (if strOk h.copyright then some (.bytes (cstr h.copyright)) else none)
    ∧ lookupAttr "Software" (deriveSpec h i raw td ubuf).attrs
        = (if strOk h.creator then some (.bytes (cstr h.creator)) else none)
    ∧ lookupAttr "DocumentName" (deriveSpec h i raw td ubuf).attrs
        = (if strOk h.project then some (.bytes (cstr h.project)) else none)
    ∧ lookupAttr "smpte:TimeCode" (deriveSpec h i raw td ubuf).attrs
        = (if h.timeCode != 4294967295
           then some (.timecode h.timeCode h.userBits) else none)
    ∧ lookupAttr "dpx:UserBits" (deriveSpec h i raw td ubuf).attrs
        = (if h.userBits != 4294967295 then some (.u h.userBits) else none) := by
  refine ⟨?_, ?_, ?_, ?_, ?_, ?_⟩
  · intro nf hnf
    have hmem : (emitCond nf.2, nf.1, fieldVal nf.2) ∈ attrTriples h i ubuf := by
      apply List.mem_append.mpr; left
      apply List.mem_append.mpr; right
      exact List.mem_map.mpr ⟨nf, hnf, rfl⟩
    exact lookupAttr_deriveSpec raw td hmem
  · exact lookupAttr_deriveSpec raw td (by
      apply List.mem_append.mpr; left
      apply List.mem_append.mpr; left
      simp [preTriples])
  · exact lookupAttr_deriveSpec raw td (by
      apply List.mem_append.mpr; left
      apply List.mem_append.mpr; left
      simp [preTriples])
  · exact lookupAttr_deriveSpec raw td (by
      apply List.mem_append.mpr; left
      apply List.mem_append.mpr; left
      simp [preTriples])
  · exact lookupAttr_deriveSpec raw td (by
      apply List.mem_append.mpr; right
      simp [postTriples])
  · exact lookupAttr_deriveSpec raw td (by
      apply List.mem_append.mpr; right
      simp [postTriples])

/-- Witness for C1 (amended) at hdrC1: a non-sentinel EncryptKey is
emitted with its value, as is the nonempty copyright string. -/
theorem claim_C1_witness :
    lookupAttr "dpx:EncryptKey" (deriveSpec hdrC1 0 false TD.uint8 []).attrs
      = some (AttrVal.u 7)
    ∧ lookupAttr "Copyright" (deriveSpec hdrC1 0 false TD.uint8 []).attrs
      = some (AttrVal.bytes (strBytes "ab")) := by
  have h := claim_C1_sentinel hdrC1 0 false TD.uint8 []
  constructor
  · have h1 := h.1 ("dpx:EncryptKey", .intF hdrC1.encryptKey)
      (by simp [macroFields])
    rw [h1, if_pos (by decide)]
    decide
  · rw [h.2.1, if_pos (by decide)]
    decide

/-- C6: the video-signal code 255 (the nullptr table entry) suppresses the
dpx:Signal attribute entirely; a code absent from signal_table emits the
default string "Undefined"; any other code present in the table emits that
entry's string. -/
theorem claim_C6_signal (h : Header) (i : Nat) (raw : Bool) (td : TD)
    (ubuf : List Nat) :
    (h.signal = k255 →
      lookupAttr "dpx:Signal" (deriveSpec h i raw td ubuf).attrs = none)
    ∧ (h.signal ∉ signalTable.map Prod.fst →
      lookupAttr "dpx:Signal" (deriveSpec h i raw td ubuf).attrs
        = some (.s "Undefined"))
    ∧ (∀ (c : Nat) (str : String), (c, some str) ∈ signalTable →
      h.signal = c →
      lookupAttr "dpx:Signal" (deriveSpec h i raw td ubuf).attrs
        = some (.s str)) := by
  have hmem : ((signalOpt h).isSome, "dpx:Signal",
      AttrVal.s ((signalOpt h).getD "")) ∈ attrTriples h i ubuf := by
    apply List.mem_append.mpr; right
    simp [postTriples]
  have hl := lookupAttr_deriveSpec raw td hmem
  refine ⟨?_, ?_, ?_⟩
  · intro hs
    have hopt : signalOpt h = none := by
      rw [signalOpt, hs]; decide
    rw [hl, hopt]; rfl
  · intro hs
    have hopt : signalOpt h = some "Undefined" :=
      lookup_eq_default _ _ _ hs
    rw [hl, hopt]; rfl
  · intro c str hcs hs
    have hopt : signalOpt h = some str := by
      rw [signalOpt, hs]
      exact lookup_mem_nodup _ (by decide) hcs
    rw [hl, hopt]; rfl

/-- Witness for C6 at the three kinds of signal codes: 255 (suppressed),
42 (absent from the table) and 1 (NTSC). -/
theorem claim_C6_witness :
    lookupAttr "dpx:Signal" (deriveSpec hdrSig255 0 false TD.uint8 []).attrs
      = none
    ∧ lookupAttr "dpx:Signal" (deriveSpec hdrSig42 0 false TD.uint8 []).attrs
      = some (.s "Undefined")
    ∧ lookupAttr "dpx:Signal" (deriveSpec hdrSig1 0 false TD.uint8 []).attrs
      = some (.s "NTSC") := by
  refine ⟨?_, ?_, ?_⟩
  · exact (claim_C6_signal hdrSig255 0 false TD.uint8 []).1 rfl
  · exact (claim_C6_signal hdrSig42 0 false TD.uint8 []).2.1 (by decide)
  · exact (claim_C6_signal hdrSig1 0 false TD.uint8 []).2.2 1 "NTSC"
      (by decide) rfl

/-! ### Branch equations of seek_subimage -/

theorem seek_mip_ne (s : DPXState) (j m : Int) (hm : m ≠ 0) :
    seek_subimage s j m = (false, s) := by
  unfold seek_subimage
  rw [if_pos hm]

theorem seek_same (s : DPXState) (j : Int) (hj : j = s.m_subimage) :
    seek_subimage s j 0 = (true, s) := by
  unfold seek_subimage
  rw [if_neg (fun hh : (0 : Int) ≠ 0 => hh rfl), if_pos hj]

theorem seek_oor (s : DPXState) (j : Int) (hne : j ≠ s.m_subimage)
    (hj : j < 0 ∨ (s.header.imageElementCount : Int) ≤ j) :
    seek_subimage s j 0 = (false, s) := by
  unfold seek_subimage
  rw [if_neg (fun hh : (0 : Int) ≠ 0 => hh rfl), if_neg hne, if_pos hj]

theorem seek_bad_size (s : DPXState) (j : Int) (hne : j ≠ s.m_subimage)
    (h0 : 0 ≤ j) (hlt : j < (s.header.imageElementCount : Int))
    (htd : typeDescOf s.header j.toNat = none) :
    seek_subimage s j 0 = (false, { s with m_subimage := j }) := by
  unfold seek_subimage
  rw [if_neg (fun hh : (0 : Int) ≠ 0 => hh rfl), if_neg hne,
    if_neg (by omega :
      ¬(j < 0 ∨ (s.header.imageElementCount : Int) ≤ j)), htd]

theorem seek_success (s : DPXState) (j : Int) (td : TD)
    (hne : j ≠ s.m_subimage) (h0 : 0 ≤ j)
    (hlt : j < (s.header.imageElementCount : Int))
    (htd : typeDescOf s.header j.toNat = some td) :
    seek_subimage s j 0
      = (true,
         { s with
           m_subimage := j
           m_userBuf := ubufAfter s
           m_spec := deriveSpec s.header j.toNat s.m_rawcolor td (ubufAfter s)
           m_rawcolor :=
             if (deriveSpec s.header j.toNat s.m_rawcolor td (ubufAfter s)).nchannels = 1
             then true else s.m_rawcolor
           userDataReads := s.userDataReads + (if readNowB s then 1 else 0) }) := by
  unfold seek_subimage
  rw [if_neg (fun hh : (0 : Int) ≠ 0 => hh rfl), if_neg hne,
    if_neg (by omega :
      ¬(j < 0 ∨ (s.header.imageElementCount : Int) ≤ j)), htd]

/-- C3: selecting the already-selected subimage (at miplevel 0) is a no-op
success leaving the whole instance state — metadata, caches, read counter
— untouched, and selecting any negative or out-of-range index fails with
the state (in particular the current subimage) unchanged. -/
theorem claim_C3_noop_range (s : DPXState)
    (h0 : 0 ≤ s.m_subimage)
    (hc : s.m_subimage < (s.header.imageElementCount : Int)) :
    seek_subimage s s.m_subimage 0 = (true, s)
    ∧ (∀ j : Int, j < 0 ∨ (s.header.imageElementCount : Int) ≤ j →
        seek_subimage s j 0 = (false, s)
        ∧ current_subimage (seek_subimage s j 0).2 = current_subimage s) := by
  constructor
  · exact seek_same s s.m_subimage rfl
  · intro j hj
    have hne : j ≠ s.m_subimage := by rcases hj with hj | hj <;> omega
    have he := seek_oor s j hne hj
    exact ⟨he, by rw [he]⟩



/-- Witness for C3 on the concrete opened instance st0 (subimage 0 of two
selected): re-selecting 0 is a no-op success, -1 and 5 fail without
touching the state. -/
theorem claim_C3_witness :
    seek_subimage st0 0 0 = (true, st0)
    ∧ seek_subimage st0 (-1) 0 = (false, st0)
    ∧ seek_subimage st0 5 0 = (false, st0) := by
  have h := claim_C3_noop_range st0 (by decide) (by decide)
  exact ⟨h.1, (h.2 (-1) (by decide)).1, (h.2 5 (by decide)).1⟩

/-- C4: selecting an in-range subimage whose component data size is
unsupported fails, but only after m_subimage has been updated: afterwards
current_subimage reports the failed index, not the previous selection. -/
theorem claim_C4_nonatomic (s : DPXState) (j : Int)
    (hne : j ≠ s.m_subimage) (h0 : 0 ≤ j)
    (hlt : j < (s.header.imageElementCount : Int))
    (htd : typeDescOf s.header j.toNat = none) :
    seek_subimage s j 0 = (false, { s with m_subimage := j })
    ∧ current_subimage (seek_subimage s j 0).2 = j := by
  have he := seek_bad_size s j hne h0 hlt htd
  exact ⟨he, by rw [he]; rfl⟩

/-- Witness for C4: on stBad (element 1 has component-size code 99) the
selection of subimage 1 fails yet moves the current subimage to 1. -/
theorem claim_C4_witness :
    seek_subimage stBad 1 0 = (false, { stBad with m_subimage := 1 })
    ∧ current_subimage (seek_subimage stBad 1 0).2 = 1 :=
  claim_C4_nonatomic stBad 1 (by decide) (by decide) (by decide) (by decide)

/-! ### User-data caching and the rawcolor latch -/

theorem readUserBytes_length (h : Header) :
    (readUserBytes h).length = h.userSize := by
  simp [readUserBytes]
  omega

theorem applySeeks_cons (s : DPXState) (p : Int × Int)
    (rest : List (Int × Int)) :
    applySeeks s (p :: rest) = applySeeks (seek_subimage s p.1 p.2).2 rest := rfl

/-- Every seek either leaves the user-data cache and read counter alone,
or — only from an empty cache with a usable UserSize — fills the cache
from the stream, counting one read. -/
theorem seek_user_effect (s : DPXState) (j m : Int) :
    ((seek_subimage s j m).2.m_userBuf = s.m_userBuf
      ∧ (seek_subimage s j m).2.userDataReads = s.userDataReads)
    ∨ (s.m_userBuf = [] ∧ s.header.userSize ≠ 0
      ∧ (seek_subimage s j m).2.m_userBuf = readUserBytes s.header
      ∧ (seek_subimage s j m).2.userDataReads = s.userDataReads + 1) := by
  by_cases hm : m ≠ 0
  · rw [seek_mip_ne s j m hm]; exact Or.inl ⟨rfl, rfl⟩
  · have hm0 : m = 0 := not_not.mp hm
    subst hm0
    by_cases hsame : j = s.m_subimage
    · rw [seek_same s j hsame]; exact Or.inl ⟨rfl, rfl⟩
    · by_cases hoor : j < 0 ∨ (s.header.imageElementCount : Int) ≤ j
      · rw [seek_oor s j hsame hoor]; exact Or.inl ⟨rfl, rfl⟩
      · cases htd : typeDescOf s.header j.toNat with
        | none =>
          rw [seek_bad_size s j hsame (by omega) (by omega) htd]
          exact Or.inl ⟨rfl, rfl⟩
        | some td =>
          rw [seek_success s j td hsame (by omega) (by omega) htd]
          by_cases hr : readNowB s
          · have hre := hr
            simp only [readNowB, Bool.and_eq_true, bne_iff_ne, ne_eq,
              List.isEmpty_iff] at hre
            refine Or.inr ⟨hre.1.1, hre.1.2, ?_, ?_⟩
            · show ubufAfter s = readUserBytes s.header
              rw [ubufAfter, if_pos hr]
            · show s.userDataReads + (if readNowB s then 1 else 0)
                = s.userDataReads + 1
              rw [if_pos hr]
          · refine Or.inl ⟨?_, ?_⟩
            · show ubufAfter s = s.m_userBuf
              rw [ubufAfter, if_neg hr]
            · show s.userDataReads + (if readNowB s then 1 else 0)
                = s.userDataReads
              rw [if_neg hr]
              exact Nat.add_zero _

/-- The caching invariant is preserved by every seek: the read counter is
zero while the cache is empty, and never exceeds one. -/
theorem seek_user_inv (s : DPXState) (j m : Int)
    (hI : (s.m_userBuf = [] → s.userDataReads = 0) ∧ s.userDataReads ≤ 1) :
    ((seek_subimage s j m).2.m_userBuf = []
      → (seek_subimage s j m).2.userDataReads = 0)
    ∧ (seek_subimage s j m).2.userDataReads ≤ 1 := by
  rcases seek_user_effect s j m with ⟨hb, hr⟩ | ⟨hb, hsz, hbuf, hr⟩
  · rw [hb, hr]; exact hI
  · constructor
    · intro hnil
      rw [hbuf] at hnil
      have hlen := readUserBytes_length s.header
      rw [hnil] at hlen
      exact absurd hlen.symm hsz
    · rw [hr, hI.1 hb]

/-- C7: the user-data block is read from the stream at most once per
instance lifetime: across any sequence of seeks from a fresh instance the
read counter never exceeds one; a seek from a nonempty cache reuses the
buffer and issues no read; and a selection of a new subimage from an empty
cache with a usable UserSize performs exactly one read, leaving the cache
nonempty. -/
theorem claim_C7_userdata_once (s0 : DPXState) (ops : List (Int × Int))
    (_hb0 : s0.m_userBuf = []) (hr0 : s0.userDataReads = 0) :
    (applySeeks s0 ops).userDataReads ≤ 1
    ∧ (∀ (s : DPXState) (j m : Int), s.m_userBuf ≠ [] →
        (seek_subimage s j m).2.m_userBuf = s.m_userBuf
        ∧ (seek_subimage s j m).2.userDataReads = s.userDataReads)
    ∧ (∀ (s : DPXState) (j : Int), s.m_userBuf = [] →
        s.header.userSize ≠ 0 → s.header.userSize ≠ 4294967295 →
        j ≠ s.m_subimage → (seek_subimage s j 0).1 = true →
        (seek_subimage s j 0).2.userDataReads = s.userDataReads + 1
        ∧ (seek_subimage s j 0).2.m_userBuf ≠ []) := by
  refine ⟨?_, ?_, ?_⟩
  · have key : ∀ (l : List (Int × Int)) (s : DPXState),
        ((s.m_userBuf = [] → s.userDataReads = 0) ∧ s.userDataReads ≤ 1) →
        (applySeeks s l).userDataReads ≤ 1 := by
      intro l
      induction l with
      | nil => intro s hI; exact hI.2
      | cons p rest ih =>
        intro s hI
        rw [applySeeks_cons]
        exact ih _ (seek_user_inv s p.1 p.2 hI)
    exact key ops s0 ⟨fun _ => hr0, by omega⟩
  · intro s j m hb
    rcases seek_user_effect s j m with h | h
    · exact h
    · exact absurd h.1 hb
  · intro s j hb hsz hsent hne hsucc
    by_cases hoor : j < 0 ∨ (s.header.imageElementCount : Int) ≤ j
    · rw [seek_oor s j hne hoor] at hsucc
      simp at hsucc
    · cases htd : typeDescOf s.header j.toNat with
      | none =>
        rw [seek_bad_size s j hne (by omega) (by omega) htd] at hsucc
        simp at hsucc
      | some td =>
        have hrn : readNowB s = true := by
          simp only [readNowB, hb, List.isEmpty_nil, Bool.true_and,
            Bool.and_eq_true, bne_iff_ne, ne_eq]
          exact ⟨hsz, hsent⟩
        rw [seek_success s j td hne (by omega) (by omega) htd]
        constructor
        · show s.userDataReads + (if readNowB s then 1 else 0)
            = s.userDataReads + 1
          rw [if_pos hrn]
        · show ubufAfter s ≠ []
          rw [ubufAfter, if_pos hrn]
          intro hnil
          have hlen := readUserBytes_length s.header
          rw [hnil] at hlen
          exact hsz hlen.symm

/-- Witness for C7: three seeks on a fresh instance with 3 bytes of user
data read it once, and a seek from a primed cache leaves it alone. -/
theorem claim_C7_witness :
    (applySeeks stU [(0, 0), (1, 0), (0, 0)]).userDataReads ≤ 1
    ∧ (seek_subimage { stU with m_userBuf := [5] } 0 0).2.m_userBuf = [5] := by
  have h := claim_C7_userdata_once stU [(0, 0), (1, 0), (0, 0)] rfl rfl
  exact ⟨h.1, (h.2.1 { stU with m_userBuf := [5] } 0 0 (by decide)).1⟩

theorem seek_preserves_rawcolor (s : DPXState) (j m : Int)
    (h : s.m_rawcolor = true) : (seek_subimage s j m).2.m_rawcolor = true := by
  by_cases hm : m ≠ 0
  · rw [seek_mip_ne s j m hm]; exact h
  · have hm0 : m = 0 := not_not.mp hm
    subst hm0
    by_cases hsame : j = s.m_subimage
    · rw [seek_same s j hsame]; exact h
    · by_cases hoor : j < 0 ∨ (s.header.imageElementCount : Int) ≤ j
      · rw [seek_oor s j hsame hoor]; exact h
      · cases htd : typeDescOf s.header j.toNat with
        | none =>
          rw [seek_bad_size s j hsame (by omega) (by omega) htd]
          exact h
        | some td =>
          rw [seek_success s j td hsame (by omega) (by omega) htd]
          show (if (deriveSpec s.header j.toNat s.m_rawcolor td
            (ubufAfter s)).nchannels = 1 then true else s.m_rawcolor) = true
          rw [h]
          simp

/-- On a raw-mode selection of a CbYCrY element, the channel switch takes
the two-plane raw branch. -/
theorem channelInfo_CbYCrY (h : Header) (i : Nat)
    (hd : h.imageDescriptor i = kCbYCrY) :
    channelInfo h i true
      = ⟨["CbCr", "Y"], h.imageElementComponentCount i, -1, -1⟩ := by
  simp [channelInfo, hd, kRed, kGreen, kBlue, kAlpha, kLuma, kDepth, kRGB,
    kRGBA, kABGR, kCbYCrY]

/-- C9: a successful selection whose resulting spec has exactly one
channel latches the rawcolor flag; the flag, once true, survives every
further seek; and a later selection of a CbYCrY (4:2:2) subimage in the
same instance then gets the raw two-plane channel layout and its scanline
reads take the raw path with no color conversion. -/
theorem claim_C9_rawcolor_latch :
    (∀ (s : DPXState) (j m : Int) (s2 : DPXState), j ≠ s.m_subimage →
      seek_subimage s j m = (true, s2) → s2.m_spec.nchannels = 1 →
      s2.m_rawcolor = true)
    ∧ (∀ (s : DPXState) (ops : List (Int × Int)), s.m_rawcolor = true →
      (applySeeks s ops).m_rawcolor = true)
    ∧ (∀ (s : DPXState) (j : Int), s.m_rawcolor = true → j ≠ s.m_subimage →
      (seek_subimage s j 0).1 = true →
      s.header.imageDescriptor j.toNat = kCbYCrY →
      (seek_subimage s j 0).2.m_spec.channelnames = ["CbCr", "Y"]
      ∧ (read_native_scanlines s j 0).2.2 = some ReadPath.raw) := by
  refine ⟨?_, ?_, ?_⟩
  · intro s j m s2 hne hseek hnch
    by_cases hm : m = 0
    · subst hm
      by_cases hoor : j < 0 ∨ (s.header.imageElementCount : Int) ≤ j
      · rw [seek_oor s j hne hoor] at hseek
        simp at hseek
      · cases htd : typeDescOf s.header j.toNat with
        | none =>
          rw [seek_bad_size s j hne (by omega) (by omega) htd] at hseek
          simp at hseek
        | some td =>
          rw [seek_success s j td hne (by omega) (by omega) htd] at hseek
          have hs2 := (congrArg Prod.snd hseek).symm
          subst hs2
          have hnch2 : (deriveSpec s.header j.toNat s.m_rawcolor td
              (ubufAfter s)).nchannels = 1 := hnch
          show (if (deriveSpec s.header j.toNat s.m_rawcolor td
              (ubufAfter s)).nchannels = 1 then true else s.m_rawcolor) = true
          rw [if_pos hnch2]
    · rw [seek_mip_ne s j m hm] at hseek
      simp at hseek
  · intro s ops
    induction ops generalizing s with
    | nil => intro h; exact h
    | cons p rest ih =>
      intro h
      rw [applySeeks_cons]
      exact ih _ (seek_preserves_rawcolor s p.1 p.2 h)
  · intro s j hraw hne hsucc hdesc
    by_cases hoor : j < 0 ∨ (s.header.imageElementCount : Int) ≤ j
    · rw [seek_oor s j hne hoor] at hsucc
      simp at hsucc
    · cases htd : typeDescOf s.header j.toNat with
      | none =>
        rw [seek_bad_size s j hne (by omega) (by omega) htd] at hsucc
        simp at hsucc
      | some td =>
        have hs := seek_success s j td hne (by omega) (by omega) htd
        constructor
        · rw [hs]
          show (deriveSpec s.header j.toNat s.m_rawcolor td
            (ubufAfter s)).channelnames = ["CbCr", "Y"]
          rw [hraw]
          show (channelInfo s.header j.toNat true).names = ["CbCr", "Y"]
          rw [channelInfo_CbYCrY s.header j.toNat hdesc]
        · simp only [read_native_scanlines, hsucc,
            seek_preserves_rawcolor s j 0 hraw, if_true]

/-- Witness for C9 on hdrW: selecting the luma subimage latches rawcolor,
and from the latched state selecting the CbYCrY subimage yields the raw
two-plane layout and the raw read path. -/
theorem claim_C9_witness :
    (seek_subimage stPre 0 0).2.m_rawcolor = true
    ∧ (seek_subimage stRaw 1 0).2.m_spec.channelnames = ["CbCr", "Y"]
    ∧ (read_native_scanlines stRaw 1 0).2.2 = some ReadPath.raw := by
  refine ⟨?_, ?_, ?_⟩
  · exact claim_C9_rawcolor_latch.1 stPre 0 0 (seek_subimage stPre 0 0).2
      (by decide) rfl (by decide)
  · exact (claim_C9_rawcolor_latch.2.2 stRaw 1 rfl (by decide) (by decide)
      (by decide)).1
  · exact (claim_C9_rawcolor_latch.2.2 stRaw 1 rfl (by decide) (by decide)
      (by decide)).2
